import Mathlib

/-!
Shallow embedding of the synchronous command bridge in
`src/blender_mcp_server.py`: the command queue, the execution pump
(`execute_commands_from_queue`), the per-connection session handler
(`BlenderCommHandler.handle`), the per-request response slot
(`queue.Queue`), and the server lifecycle (`start_server`).

Python values flowing through the bridge are modelled by a small JSON
datatype; Python exceptions are modelled by `Except String`; the external
`bpy.ops` namespace is modelled by an association-list registry whose
entries may report a result flag set or raise.
-/

namespace MCP

/-- JSON values, as produced by `json.loads` on the request body. -/
inductive Json where
  | null
  | bool (b : Bool)
  | num (n : Int)
  | str (s : String)
  | arr (elems : List Json)
  | obj (fields : List (String × Json))

/-- Python truthiness of a JSON value: `if not x:` takes the `not` branch
exactly when `falsy x = true`. -/
def Json.falsy : Json → Bool
  | .null => true
  | .bool b => !b
  | .num n => n == 0
  | .str s => s == ""
  | .arr elems => elems.isEmpty
  | .obj fields => fields.isEmpty

/-- The Python type name of a JSON value, used in modelled exception text. -/
def Json.pyTypeName : Json → String
  | .null => "NoneType"
  | .bool _ => "bool"
  | .num _ => "int"
  | .str _ => "str"
  | .arr _ => "list"
  | .obj _ => "dict"

/-- Response status: the status field of the reply object. -/
inductive Status where
  | OK
  | ERROR
deriving DecidableEq, Repr

/-- A reply object carrying a status and a message string. -/
structure Response where
  status : Status
  message : String
deriving DecidableEq, Repr

/-- Outcome of invoking a registered operator: a result set of flag strings
(such as FINISHED), or a raised exception carrying a message. -/
inductive OpResult where
  | result (flags : List String)
  | raised (msg : String)

/-- The external `bpy.ops` namespace, modelled as an association list from
module name to an association list from operator name to its callable. -/
abbrev Registry := List (String × List (String × (Json → OpResult)))

/-- Model of `getattr(bpy.ops, op_module)` over the registry; a missing
module raises AttributeError as in Python. -/
def getattrModule (reg : Registry) (op_module : String) :
    Except String (List (String × (Json → OpResult))) :=
  match reg.lookup op_module with
  | some m => .ok m
  | none => .error ("module \x27bpy.ops\x27 has no attribute \x27" ++ op_module ++ "\x27")

/-- Model of `getattr(op_module_obj, op_name)`; a missing operator raises
AttributeError as in Python. -/
def getattrOp (op_module : String) (m : List (String × (Json → OpResult)))
    (op_name : String) : Except String (Json → OpResult) :=
  match m.lookup op_name with
  | some f => .ok f
  | none =>
    .error ("module \x27bpy.ops." ++ op_module ++ "\x27 has no attribute \x27"
      ++ op_name ++ "\x27")

/-- Splits a character list at its last occurrence of `sep`, returning the
parts before and after it; `none` when `sep` does not occur. -/
def rsplitLastAux (sep : Char) : List Char → Option (List Char × List Char)
  | [] => none
  | c :: cs =>
    match rsplitLastAux sep cs with
    | some (l, r) => some (c :: l, r)
    | none => if c = sep then some ([], cs) else none

/-- Model of the source line `op_module, op_name = operator_path.rsplit` at
the last dot with maxsplit 1: with no dot the one-element result list fails
tuple unpacking and Python raises ValueError. -/
def rsplitDot1 (s : String) : Except String (String × String) :=
  match rsplitLastAux '.' s.data with
  | some (l, r) => .ok (⟨l⟩, ⟨r⟩)
  | none => .error "not enough values to unpack (expected 2, got 1)"

/-- Model of `command.get` applied to the key "operator": `none` when the
key is absent; a non-dict command raises AttributeError since only dicts
have a get method. -/
def getOperatorField (command : Json) : Except String (Option Json) :=
  match command with
  | .obj fields => .ok (fields.lookup "operator")
  | other =>
    .error ("\x27" ++ other.pyTypeName ++ "\x27 object has no attribute \x27get\x27")

/-- Model of `command.get` applied to the key "params" with an empty dict
as default, for a dict command. -/
def getParamsField (command : Json) : Json :=
  match command with
  | .obj fields => (fields.lookup "params").getD (.obj [])
  | _ => .obj []

/-- The resolution phase of one pump iteration (source lines 30-38): read
the operator path and params from the command, reject a missing or falsy
operator path (ValueError), require it to be a string, split it into
module and name at the last dot, and look both up in the registry. -/
def resolveCommand (reg : Registry) (command : Json) :
    Except String (String × Json × (Json → OpResult)) :=
  match getOperatorField command with
  | .error e => .error e
  | .ok operatorField =>
    let params := getParamsField command
    match operatorField with
    | none => .error "\x27operator\x27 key is missing."
    | some v =>
      if v.falsy then .error "\x27operator\x27 key is missing."
      else
        match v with
        | .str operator_path =>
          (match rsplitDot1 operator_path with
           | .error e => .error e
           | .ok (op_module, op_name) =>
             match getattrModule reg op_module with
             | .error e => .error e
             | .ok m =>
               match getattrOp op_module m op_name with
               | .error e => .error e
               | .ok operator_func => .ok (operator_path, params, operator_func))
        | other =>
          .error ("\x27" ++ other.pyTypeName ++ "\x27 object has no attribute \x27rsplit\x27")

/-- Model of the invocation `operator_func(INVOKE_DEFAULT, True, **params)`:
the double-star unpacking demands a mapping (TypeError otherwise); the
callable either yields its result flag set or raises. -/
def invokeOperator (operator_func : Json → OpResult) (params : Json) :
    Except String (List String) :=
  match params with
  | .obj _ =>
    (match operator_func params with
     | .result flags => .ok flags
     | .raised msg => .error msg)
  | other => .error ("argument after ** must be a mapping, not " ++ other.pyTypeName)

/-- The body of the try block for one command in the pump (source lines
30-47): resolve, invoke, and classify by whether FINISHED is in the result
set; a propagated `.error` is a raised Python exception. -/
def execCore (reg : Registry) (command : Json) : Except String Response :=
  match resolveCommand reg command with
  | .error e => .error e
  | .ok (operator_path, params, operator_func) =>
    match invokeOperator operator_func params with
    | .error e => .error e
    | .ok result =>
      if result.contains "FINISHED" then
        .ok ⟨.OK, "Executed \x27" ++ operator_path ++ "\x27 successfully."⟩
      else
        .ok ⟨.ERROR, "Operator \x27" ++ operator_path ++ "\x27 did not finish."⟩

/-- The response computed by one pump iteration (source lines 29-51): the
except-Exception arm turns any raised exception into an ERROR response
carrying the exception text. -/
def execute_command (reg : Registry) (command : Json) : Response :=
  match execCore reg command with
  | .ok r => r
  | .error e => ⟨.ERROR, e⟩

/-- A queue entry pairing a command with its per-request response queue,
the latter identified by a slot id. -/
structure PendingRequest where
  command : Json
  slot : Nat

/-- The drain loop once no further commands arrive: pop, execute, and
deliver each remaining queued command in FIFO order. -/
def drainRemaining (reg : Registry) : List PendingRequest → List (Nat × Response)
  | [] => []
  | p :: rest =>
    (p.slot, execute_command reg p.command) :: drainRemaining reg rest

/-- The pump `execute_commands_from_queue` (source lines 23-56): while the
command queue is observed non-empty it pops the front entry, executes it
and puts the response into the slot of that entry.  Concurrent handler
threads may enqueue during the pass; `arrivals` lists, per loop iteration,
the commands that other threads append between that pop and the next
emptiness check.  The returned list is the sequence of slot deliveries in
temporal order. -/
def execute_commands_from_queue (reg : Registry) :
    List PendingRequest → List (List PendingRequest) → List (Nat × Response)
  | q, [] => drainRemaining reg q
  | [], _ :: _ => []
  | p :: rest, a :: arrivals =>
    (p.slot, execute_command reg p.command) ::
      execute_commands_from_queue reg (rest ++ a) arrivals

/-- Model of the Python Queue class: maxsize zero means unbounded. -/
structure PyQueue (α : Type) where
  maxsize : Nat
  items : List α

/-- The put method of a Queue appends; it blocks (modelled as `none`)
exactly when the queue is bounded and full, and otherwise returns at
once. -/
def PyQueue.put {α : Type} (q : PyQueue α) (x : α) : Option (PyQueue α) :=
  if 0 < q.maxsize ∧ q.maxsize ≤ q.items.length then none
  else some { q with items := q.items ++ [x] }

/-- The fresh unbounded response queue a handler creates for its request
(source line 66). -/
def freshResponseQueue : PyQueue Response :=
  { maxsize := 0, items := [] }

/-- The delivery step of the pump (source line 54): put the response into
the response queue of the request. -/
def deliver (slot : PyQueue Response) (r : Response) : Option (PyQueue Response) :=
  slot.put r

/-- The handler deadline in seconds, from the get call with timeout 10.0
(source line 71). -/
def RESPONSE_TIMEOUT : Nat := 10

/-- The blocking wait of the handler: `arrival` is the time in seconds
after the enqueue at which the pump delivers into the slot, if ever; a
delivery after the deadline is invisible to the waiting get call, which
raises the queue-Empty exception (modelled as `none`). -/
def awaitResponse (arrival : Option (Nat × Response)) : Option Response :=
  match arrival with
  | some (t, r) => if t ≤ RESPONSE_TIMEOUT then some r else none
  | none => none

/-- The method handle of BlenderCommHandler (source lines 60-83): `parsed`
is the outcome of `json.loads` on the received bytes (`.error` carries the
raised exception text).  On a parse failure the except-Exception arm
replies ERROR at once and the command queue `q` is untouched; otherwise
the command is enqueued and the handler blocks on its fresh slot, replying
with the delivered response or, past the deadline, with the timeout ERROR.
Returns the reply written to the caller and the queue after the handler
ran. -/
def handle (parsed : Except String Json) (arrival : Option (Nat × Response))
    (q : List Json) : Response × List Json :=
  match parsed with
  | .error e => (⟨.ERROR, e⟩, q)
  | .ok command =>
    match awaitResponse arrival with
    | some response => (response, q ++ [command])
    | none => (⟨.ERROR, "Blender process timed out."⟩, q ++ [command])

/-- A listener thread; the field `alive` models the method is_alive. -/
structure PyThread where
  alive : Bool
deriving DecidableEq, Repr

/-- The module-level globals `server_thread` and `tcp_server`; the bound
server object is identified by a numeric id. -/
structure ServerGlobals where
  server_thread : Option PyThread
  tcp_server : Option Nat
deriving DecidableEq, Repr

/-- Externally visible effects of `start_server`. -/
inductive ServerAction where
  | bindSocket
  | spawnThread
deriving DecidableEq, Repr

/-- The function `start_server` (source lines 93-107): if `server_thread`
is truthy and alive, return at once; otherwise bind a new BlenderTCPServer
and start a new daemon listener thread.  Returns the new globals and the
performed actions. -/
def start_server (s : ServerGlobals) (newServerId : Nat) :
    ServerGlobals × List ServerAction :=
  match s.server_thread with
  | some t =>
    if t.alive then (s, [])
    else
      ({ server_thread := some ⟨true⟩, tcp_server := some newServerId },
        [.bindSocket, .spawnThread])
  | none =>
    ({ server_thread := some ⟨true⟩, tcp_server := some newServerId },
      [.bindSocket, .spawnThread])

/-- A demo registry entry reporting FINISHED for any parameters. -/
def demoCap : Json → OpResult := fun _ => .result ["FINISHED"]

/-- A demo registry with one module and one operator. -/
def demoRegistry : Registry := [("mesh", [("primitive_cube_add", demoCap)])]

/-- Builds the parsed request object for an operator path and parameters. -/
def mkCommand (operator_path : String) (params : Json) : Json :=
  .obj [("operator", .str operator_path), ("params", params)]

/-! ### Helper lemmas -/

theorem rsplitLastAux_eq_none (sep : Char) (l : List Char) (h : sep ∉ l) :
    rsplitLastAux sep l = none := by
  induction l with
  | nil => rfl
  | cons c cs ih =>
    simp only [List.mem_cons, not_or] at h
    have hcs : c ≠ sep := fun hcs => h.1 hcs.symm
    simp [rsplitLastAux, ih h.2, hcs]

theorem rsplitLastAux_split_last (sep : Char) (l₁ l₂ : List Char) (h : sep ∉ l₂) :
    rsplitLastAux sep (l₁ ++ sep :: l₂) = some (l₁, l₂) := by
  induction l₁ with
  | nil => simp [rsplitLastAux, rsplitLastAux_eq_none sep l₂ h]
  | cons c cs ih => simp [rsplitLastAux, ih]

theorem rsplitDot1_no_dot (s : String) (h : ('.' : Char) ∉ s.data) :
    rsplitDot1 s = .error "not enough values to unpack (expected 2, got 1)" := by
  simp [rsplitDot1, rsplitLastAux_eq_none _ _ h]

theorem data_append_dot (m n : String) :
    (m ++ "." ++ n).data = m.data ++ ('.' : Char) :: n.data := by
  rw [String.data_append, String.data_append]
  simp [show (".".data : List Char) = [('.' : Char)] from rfl]

theorem rsplitDot1_append_dot (m n : String) (h : ('.' : Char) ∉ n.data) :
    rsplitDot1 (m ++ "." ++ n) = .ok (m, n) := by
  simp [rsplitDot1, data_append_dot, rsplitLastAux_split_last _ _ _ h]

theorem append_dot_beq_empty (m n : String) : ((m ++ "." ++ n) == "") = false := by
  rw [beq_eq_false_iff_ne]
  intro hcontra
  have hd : (m ++ "." ++ n).data = [] := by rw [hcontra]
  rw [data_append_dot] at hd
  simp at hd

theorem drainRemaining_eq_map (reg : Registry) (q : List PendingRequest) :
    drainRemaining reg q = q.map (fun p => (p.slot, execute_command reg p.command)) := by
  induction q with
  | nil => rfl
  | cons p rest ih => simp [drainRemaining, ih]

theorem drain_nil_sched (reg : Registry) (q : List PendingRequest) :
    execute_commands_from_queue reg q [] = drainRemaining reg q := by
  simp [execute_commands_from_queue]

theorem drain_cons_cons (reg : Registry) (p : PendingRequest)
    (rest a : List PendingRequest) (arrivals : List (List PendingRequest)) :
    execute_commands_from_queue reg (p :: rest) (a :: arrivals)
      = (p.slot, execute_command reg p.command)
          :: execute_commands_from_queue reg (rest ++ a) arrivals := by
  simp [execute_commands_from_queue]

theorem drain_take_eq_map (reg : Registry) (sched : List (List PendingRequest))
    (q : List PendingRequest) :
    (execute_commands_from_queue reg q sched).take q.length
      = q.map (fun p => (p.slot, execute_command reg p.command)) := by
  induction sched generalizing q with
  | nil =>
    rw [drain_nil_sched, drainRemaining_eq_map,
      show q.length = (q.map (fun p => (p.slot, execute_command reg p.command))).length from
        (List.length_map _ _).symm,
      List.take_length]
  | cons a as ih =>
    cases q with
    | nil => simp [execute_commands_from_queue]
    | cons p rest =>
      rw [drain_cons_cons]
      simp only [List.length_cons, List.take_succ_cons, List.map_cons]
      congr 1
      have hle : rest.length ≤ (rest ++ a).length := by
        simp [List.length_append]
      have htt : (execute_commands_from_queue reg (rest ++ a) as).take rest.length
          = ((execute_commands_from_queue reg (rest ++ a) as).take
              (rest ++ a).length).take rest.length := by
        rw [List.take_take, min_eq_left hle]
      rw [htt, ih (rest ++ a), List.map_append,
        show rest.length
            = (rest.map (fun p => (p.slot, execute_command reg p.command))).length from
          (List.length_map _ _).symm,
        List.take_left]

theorem drain_length_le (reg : Registry) (sched : List (List PendingRequest))
    (q : List PendingRequest) :
    (execute_commands_from_queue reg q sched).length
      ≤ q.length + (sched.map List.length).sum := by
  induction sched generalizing q with
  | nil => simp [drain_nil_sched, drainRemaining_eq_map]
  | cons a as ih =>
    cases q with
    | nil => simp [execute_commands_from_queue]
    | cons p rest =>
      have hrec := ih (rest ++ a)
      rw [drain_cons_cons]
      simp only [List.length_cons, List.length_append, List.map_cons, List.sum_cons]
        at hrec ⊢
      omega

/-! ### Claims -/

/-- C1 (counterexample): the claim states that a parsed request object
lacking an operator field never reaches the command queue.  In the code
the handler enqueues every successfully parsed command without inspecting
it, so the queue does change: at the concrete input, an object with only a
params field, the queue goes from empty to non-empty. -/
theorem c1_counterexample :
    (handle (.ok (Json.obj [("params", Json.obj [])])) none []).2 ≠ ([] : List Json) := by
  simp [handle, awaitResponse]

/-- C1 (amended): a request whose body is unparsable JSON gets an ERROR
reply from the handler at once and the command queue is untouched; a
parsed object lacking the operator field IS enqueued, and the pump then
computes an ERROR response (the ValueError text about the missing operator
key) for delivery through the slot of that request. -/
theorem c1_amended (reg : Registry) (e : String) (arrival : Option (Nat × Response))
    (q : List Json) (fields : List (String × Json))
    (hmiss : fields.lookup "operator" = none) :
    handle (.error e) arrival q = (⟨.ERROR, e⟩, q)
    ∧ (handle (.ok (Json.obj fields)) arrival q).2 = q ++ [Json.obj fields]
    ∧ execute_command reg (Json.obj fields)
        = ⟨.ERROR, "\x27operator\x27 key is missing."⟩ := by
  refine ⟨rfl, ?_, ?_⟩
  · cases harr : awaitResponse arrival <;> simp [handle, harr]
  · simp [execute_command, execCore, resolveCommand, getOperatorField, hmiss]

/-- C1 (witness): the amended claim at concrete inputs: a json.loads
failure message, and a request object with only a params field. -/
theorem c1_witness :
    handle (.error "Expecting value: line 1 column 1 (char 0)") none []
        = (⟨.ERROR, "Expecting value: line 1 column 1 (char 0)"⟩, [])
    ∧ (handle (.ok (Json.obj [("params", Json.obj [])])) none []).2
        = [] ++ [Json.obj [("params", Json.obj [])]]
    ∧ execute_command demoRegistry (Json.obj [("params", Json.obj [])])
        = ⟨.ERROR, "\x27operator\x27 key is missing."⟩ :=
  c1_amended demoRegistry "Expecting value: line 1 column 1 (char 0)" none []
    [("params", Json.obj [])] rfl

/-- C2: once the pump has resolved a command to a registered callable, the
outcome is classified exactly as in the source: a result set containing
FINISHED yields an OK response with the success message; a result set
without FINISHED yields an ERROR response saying the operator did not
finish; a raised invocation yields an ERROR response carrying the raised
message. -/
theorem c2 (reg : Registry) (command : Json) (operator_path : String) (params : Json)
    (operator_func : Json → OpResult)
    (hres : resolveCommand reg command = .ok (operator_path, params, operator_func)) :
    (∀ flags, invokeOperator operator_func params = .ok flags →
        flags.contains "FINISHED" = true →
        execute_command reg command
          = ⟨.OK, "Executed \x27" ++ operator_path ++ "\x27 successfully."⟩)
    ∧ (∀ flags, invokeOperator operator_func params = .ok flags →
        flags.contains "FINISHED" = false →
        execute_command reg command
          = ⟨.ERROR, "Operator \x27" ++ operator_path ++ "\x27 did not finish."⟩)
    ∧ (∀ msg, invokeOperator operator_func params = .error msg →
        execute_command reg command = ⟨.ERROR, msg⟩) := by
  refine ⟨?_, ?_, ?_⟩
  · intro flags hinv hfin
    have hmem : "FINISHED" ∈ flags := by simpa using hfin
    simp [execute_command, execCore, hres, hinv, hmem]
  · intro flags hinv hfin
    have hmem : "FINISHED" ∉ flags := by simpa using hfin
    simp [execute_command, execCore, hres, hinv, hmem]
  · intro msg hinv
    simp [execute_command, execCore, hres, hinv]

/-- C2 (witness): the demo operator reports FINISHED, so the pump replies
OK with the success message. -/
theorem c2_witness :
    execute_command demoRegistry (mkCommand "mesh.primitive_cube_add" (Json.obj []))
      = ⟨.OK, "Executed \x27mesh.primitive_cube_add\x27 successfully."⟩ :=
  (c2 demoRegistry (mkCommand "mesh.primitive_cube_add" (Json.obj []))
      "mesh.primitive_cube_add" (Json.obj []) demoCap rfl).1 ["FINISHED"] rfl rfl

/-- C3: within one drain pass the pump pops, executes and delivers the
commands present at pass start in their enqueue order: the first deliveries
of the pass are exactly the initial queue entries, mapped in order to their
slot and computed response, for any pattern of mid-pass arrivals. -/
theorem c3 (reg : Registry) (q : List PendingRequest)
    (sched : List (List PendingRequest)) :
    (execute_commands_from_queue reg q sched).take q.length
      = q.map (fun p => (p.slot, execute_command reg p.command)) :=
  drain_take_eq_map reg sched q

/-- C4: a raised exception while executing one queued command does not
abort the drain pass: every command queued at pass start is still popped,
executed and delivered in order, and the failing command is delivered an
ERROR response carrying the exception text. -/
theorem c4 (reg : Registry) (sched : List (List PendingRequest))
    (q : List PendingRequest) (i : Nat) (pend : PendingRequest) (e : String)
    (_hi : q.get? i = some pend) (hfail : execCore reg pend.command = .error e) :
    (execute_commands_from_queue reg q sched).take q.length
        = q.map (fun p => (p.slot, execute_command reg p.command))
    ∧ execute_command reg pend.command = ⟨.ERROR, e⟩ :=
  ⟨drain_take_eq_map reg sched q, by simp [execute_command, hfail]⟩

/-- C4 (witness): a two-command pass whose first command raises ValueError
(operator path without a dot); both commands are still delivered, the
failing one with the ERROR response. -/
theorem c4_witness :
    (execute_commands_from_queue demoRegistry
          [⟨mkCommand "render" (Json.obj []), 0⟩,
            ⟨mkCommand "mesh.primitive_cube_add" (Json.obj []), 1⟩] []).take
          ([⟨mkCommand "render" (Json.obj []), 0⟩,
            ⟨mkCommand "mesh.primitive_cube_add" (Json.obj []), 1⟩]
            : List PendingRequest).length
        = ([⟨mkCommand "render" (Json.obj []), 0⟩,
            ⟨mkCommand "mesh.primitive_cube_add" (Json.obj []), 1⟩]
            : List PendingRequest).map
            (fun p => (p.slot, execute_command demoRegistry p.command))
    ∧ execute_command demoRegistry
          (PendingRequest.mk (mkCommand "render" (Json.obj [])) 0).command
        = ⟨.ERROR, "not enough values to unpack (expected 2, got 1)"⟩ :=
  c4 demoRegistry []
    [⟨mkCommand "render" (Json.obj []), 0⟩,
      ⟨mkCommand "mesh.primitive_cube_add" (Json.obj []), 1⟩]
    0 ⟨mkCommand "render" (Json.obj []), 0⟩
    "not enough values to unpack (expected 2, got 1)" rfl rfl

/-- C5: delivering a response to a response slot never blocks and never
fails, whatever the slot already holds and whether or not its handler is
still waiting: handler slots are unbounded queues, so the put of the pump
always completes at once, appending the response. -/
theorem c5 (pending : List Response) (r : Response) :
    deliver { freshResponseQueue with items := pending } r
      = some { maxsize := 0, items := pending ++ [r] } := by
  simp [deliver, PyQueue.put, freshResponseQueue]

/-- C6 (counterexample): the claim states that a drain pass pops at most
as many entries as the queue held at pass start.  The loop condition is a
fresh emptiness check each iteration, so a command enqueued mid-pass is
also popped: starting from one queued command, with one mid-pass arrival,
the pass delivers two responses. -/
theorem c6_counterexample :
    ¬ ((execute_commands_from_queue demoRegistry [⟨Json.null, 0⟩]
          [[⟨Json.null, 1⟩]]).length
        ≤ ([⟨Json.null, 0⟩] : List PendingRequest).length) := by
  decide

/-- C6 (amended): a drain pass pops at most the initial queue size plus
the number of commands enqueued mid-pass, and with no mid-pass arrivals it
pops exactly the initial queue size; in particular the loop terminates
whenever only finitely many commands arrive during the pass. -/
theorem c6_amended (reg : Registry) (q : List PendingRequest)
    (sched : List (List PendingRequest)) :
    (execute_commands_from_queue reg q sched).length
        ≤ q.length + (sched.map List.length).sum
    ∧ (execute_commands_from_queue reg q []).length = q.length := by
  refine ⟨drain_length_le reg sched q, ?_⟩
  rw [drain_nil_sched, drainRemaining_eq_map]
  simp

/-- C7: a command whose operator path is not present in the registry is
delivered an ERROR response whose message names the unresolvable component
(the modelled AttributeError text), and the drain continues with the next
queued item.  Both lookup failures are covered: a module absent from the
registry, and an operator absent from a registered module; the
continuation holds for whatever response the command computes. -/
theorem c7 (reg : Registry) (op_module op_name : String) (params : Json)
    (slot : Nat) (rest : List PendingRequest)
    (hnodot : ('.' : Char) ∉ op_name.data) :
    (reg.lookup op_module = none →
      execute_command reg (mkCommand (op_module ++ "." ++ op_name) params)
        = ⟨.ERROR, "module \x27bpy.ops\x27 has no attribute \x27" ++ op_module ++ "\x27"⟩)
    ∧ (∀ m, reg.lookup op_module = some m → m.lookup op_name = none →
      execute_command reg (mkCommand (op_module ++ "." ++ op_name) params)
        = ⟨.ERROR, "module \x27bpy.ops." ++ op_module ++ "\x27 has no attribute \x27"
            ++ op_name ++ "\x27"⟩)
    ∧ execute_commands_from_queue reg
        (⟨mkCommand (op_module ++ "." ++ op_name) params, slot⟩ :: rest) []
      = (slot, execute_command reg (mkCommand (op_module ++ "." ++ op_name) params))
        :: execute_commands_from_queue reg rest [] := by
  refine ⟨?_, ?_, ?_⟩
  · intro hmod
    simp [execute_command, execCore, resolveCommand, mkCommand, getOperatorField,
      getParamsField, Json.falsy, append_dot_beq_empty,
      rsplitDot1_append_dot _ _ hnodot, getattrModule, hmod]
  · intro m hmod hop
    simp [execute_command, execCore, resolveCommand, mkCommand, getOperatorField,
      getParamsField, Json.falsy, append_dot_beq_empty,
      rsplitDot1_append_dot _ _ hnodot, getattrModule, hmod, getattrOp, hop]
  · simp [drain_nil_sched, drainRemaining]

/-- C7 (witness): an unknown operator inside the registered module mesh,
the end-to-end example path unknown.op with an unknown module, and the
drain continuing past the unknown command to a second queued command. -/
theorem c7_witness :
    execute_command demoRegistry (mkCommand ("mesh" ++ "." ++ "unknown") (Json.obj []))
      = ⟨.ERROR, "module \x27bpy.ops." ++ "mesh" ++ "\x27 has no attribute \x27"
          ++ "unknown" ++ "\x27"⟩
    ∧ execute_command demoRegistry (mkCommand ("unknown" ++ "." ++ "op") (Json.obj []))
      = ⟨.ERROR, "module \x27bpy.ops\x27 has no attribute \x27" ++ "unknown" ++ "\x27"⟩
    ∧ execute_commands_from_queue demoRegistry
        (⟨mkCommand ("mesh" ++ "." ++ "unknown") (Json.obj []), 0⟩
          :: [⟨mkCommand "mesh.primitive_cube_add" (Json.obj []), 1⟩]) []
      = (0, execute_command demoRegistry
            (mkCommand ("mesh" ++ "." ++ "unknown") (Json.obj [])))
        :: execute_commands_from_queue demoRegistry
            [⟨mkCommand "mesh.primitive_cube_add" (Json.obj []), 1⟩] [] :=
  ⟨(c7 demoRegistry "mesh" "unknown" (Json.obj []) 0
      [⟨mkCommand "mesh.primitive_cube_add" (Json.obj []), 1⟩] (by decide)).2.1
      [("primitive_cube_add", demoCap)] rfl rfl,
    (c7 demoRegistry "unknown" "op" (Json.obj []) 0
      [⟨mkCommand "mesh.primitive_cube_add" (Json.obj []), 1⟩] (by decide)).1 rfl,
    (c7 demoRegistry "mesh" "unknown" (Json.obj []) 0
      [⟨mkCommand "mesh.primitive_cube_add" (Json.obj []), 1⟩] (by decide)).2.2⟩

/-- C8: when no response reaches the slot within the fixed deadline of 10
seconds, the handler replies with the timeout ERROR message and the command
stays enqueued; a later delivery by the pump into the abandoned slot still
completes harmlessly, the response sitting unread in the slot. -/
theorem c8 (command : Json) (q : List Json) (arrival : Option (Nat × Response))
    (pending : List Response) (r : Response)
    (hlate : awaitResponse arrival = none) :
    RESPONSE_TIMEOUT = 10
    ∧ handle (.ok command) arrival q
        = (⟨.ERROR, "Blender process timed out."⟩, q ++ [command])
    ∧ deliver { freshResponseQueue with items := pending } r
        = some { maxsize := 0, items := pending ++ [r] } := by
  refine ⟨rfl, ?_, ?_⟩
  · simp [handle, hlate]
  · simp [deliver, PyQueue.put, freshResponseQueue]

/-- C8 (witness): a delivery arriving at 11 seconds, past the deadline:
the handler replies with the timeout ERROR; the late delivery into the
abandoned empty slot still succeeds. -/
theorem c8_witness :
    RESPONSE_TIMEOUT = 10
    ∧ handle (.ok (mkCommand "mesh.primitive_cube_add" (Json.obj [])))
          (some (11, ⟨.OK, "late"⟩)) []
        = (⟨.ERROR, "Blender process timed out."⟩,
            [] ++ [mkCommand "mesh.primitive_cube_add" (Json.obj [])])
    ∧ deliver { freshResponseQueue with items := ([] : List Response) }
          ⟨.OK, "late"⟩
        = some { maxsize := 0, items := [] ++ [⟨.OK, "late"⟩] } :=
  c8 (mkCommand "mesh.primitive_cube_add" (Json.obj [])) []
    (some (11, ⟨.OK, "late"⟩)) [] ⟨.OK, "late"⟩ rfl

/-- C9: start_server is idempotent while the listener thread is alive:
with an existing alive thread the call returns the globals unchanged and
performs no bind and no thread spawn. -/
theorem c9 (s : ServerGlobals) (t : PyThread) (newServerId : Nat)
    (hthread : s.server_thread = some t) (halive : t.alive = true) :
    start_server s newServerId = (s, []) := by
  simp [start_server, hthread, halive]

/-- C9 (witness): concrete running globals; a repeated start_server call
leaves them unchanged with no actions. -/
theorem c9_witness :
    start_server ⟨some ⟨true⟩, some 7⟩ 99 = (⟨some ⟨true⟩, some 7⟩, []) :=
  c9 ⟨some ⟨true⟩, some 7⟩ ⟨true⟩ 99 rfl rfl

/-- C10: a command whose non-empty operator path has no dot cannot be
split into module and operator: the pump delivers an ERROR response with
the ValueError unpacking text to the slot of that command, and the drain
continues with the next queued item. -/
theorem c10 (reg : Registry) (name : String) (params : Json) (slot : Nat)
    (rest : List PendingRequest) (hne : name ≠ "")
    (hnodot : ('.' : Char) ∉ name.data) :
    execute_command reg (mkCommand name params)
      = ⟨.ERROR, "not enough values to unpack (expected 2, got 1)"⟩
    ∧ execute_commands_from_queue reg (⟨mkCommand name params, slot⟩ :: rest) []
      = (slot, ⟨.ERROR, "not enough values to unpack (expected 2, got 1)"⟩)
        :: execute_commands_from_queue reg rest [] := by
  have hbe : (name == "") = false := beq_eq_false_iff_ne.mpr hne
  have h1 : execute_command reg (mkCommand name params)
      = ⟨.ERROR, "not enough values to unpack (expected 2, got 1)"⟩ := by
    simp [execute_command, execCore, resolveCommand, mkCommand, getOperatorField,
      getParamsField, Json.falsy, hbe, rsplitDot1_no_dot name hnodot]
  exact ⟨h1, by simp [drain_nil_sched, drainRemaining, h1]⟩

/-- C10 (witness): the dotless operator path render, followed by a second
command that is still drained. -/
theorem c10_witness :
    execute_command demoRegistry (mkCommand "render" (Json.obj []))
      = ⟨.ERROR, "not enough values to unpack (expected 2, got 1)"⟩
    ∧ execute_commands_from_queue demoRegistry
        (⟨mkCommand "render" (Json.obj []), 0⟩
          :: [⟨mkCommand "mesh.primitive_cube_add" (Json.obj []), 1⟩]) []
      = (0, ⟨.ERROR, "not enough values to unpack (expected 2, got 1)"⟩)
        :: execute_commands_from_queue demoRegistry
            [⟨mkCommand "mesh.primitive_cube_add" (Json.obj []), 1⟩] [] :=
  c10 demoRegistry "render" (Json.obj []) 0
    [⟨mkCommand "mesh.primitive_cube_add" (Json.obj []), 1⟩]
    (by decide) (by decide)

end MCP
